import Mathlib

/-!
Verification of the doodle-jump game in `src/src/Game.tsx`.

The component keeps its per-session data partly in React state
(`tiles`, `score`, `highScores`, `gameState`) and partly in refs
(`player`, `jumpCount`, `cameraY`, `scrollSpeed`).  One invocation of
`update(delta)` therefore has the following semantics, which this
embedding reproduces faithfully:

*  reads of React state (`tiles`, `score`) see the snapshot committed at
   the start of the tick;
*  writes of React state are functional updaters that are queued and
   applied in call order to the latest queued value, so the committed
   tile list after a tick is
   marks(cull(spawn(advance(snapshot))))
   where `advance` is queued at Game.tsx:240, `spawn` at :249, the cull
   at :277 and the per-collision marks (by index) inside the forEach at
   :283;
*  refs mutate synchronously and later reads see the new value.

All numbers are modelled as rationals; every constant appearing in the
source (0.8, 0.4, 16.67, ...) is an exact binary/decimal value, so the
rational model agrees with the JavaScript doubles on all the concrete
inputs used below.  `Math.pow(0.95, deltaMultiplier)`, the one
transcendental operation (horizontal drag), is passed in as the
environment field `damp`; no claim depends on its value.  `Math.random()`
draws are likewise passed in as environment data.
-/

namespace Doodle

/-- The four values of the `GameState` union type (Game.tsx:13). -/
inductive Mode
  | idle
  | playing
  | paused
  | over
deriving DecidableEq, Repr

/-- The `Tile` interface (Game.tsx:15).  The optional boolean fields are
modelled as `Bool` with the JavaScript `undefined` reading as `false`,
which is how every test in the source treats them. -/
structure Tile where
  x : ℚ
  y : ℚ
  broken : Bool
  touched : Bool
  used : Bool
  hasCoin : Bool
  coinCollected : Bool
deriving DecidableEq, Repr

/-- The `player` ref (Game.tsx:48). -/
structure Player where
  x : ℚ
  y : ℚ
  vy : ℚ
  vx : ℚ
deriving DecidableEq, Repr

/-- One batch of `Math.random()` draws used to build a procedural tile:
the horizontal position draw and the two Bernoulli draws
`Math.random() < 0.15` (broken) and `Math.random() < 0.8` (hasCoin). -/
structure TileRand where
  x : ℚ
  broken : Bool
  hasCoin : Bool
deriving DecidableEq, Repr

/-- Environment data consumed by one `update` tick: the random draws for
the tile that may be spawned this tick, and `damp`, standing for the
value of `Math.pow(0.95, deltaMultiplier)` (Game.tsx:266). -/
structure TickEnv where
  rand : TileRand
  damp : ℚ
deriving DecidableEq, Repr

/-- The whole session state of the component: React state and refs
together.  `scale` is `canvasDimensions.scale`; the canvas width and
height are always `400 * scale` and `600 * scale` (the initial value
`(400, 600, 1)` and every output of `updateCanvasSize` satisfy this). -/
structure GState where
  scale : ℚ
  gameState : Mode
  score : ℤ
  highScores : List ℤ
  tiles : List Tile
  player : Player
  jumpCount : ℕ
  cameraY : ℚ
  scrollSpeed : ℚ
deriving DecidableEq, Repr

/-- Canvas width `CANVAS_WIDTH = 400 * scale` (Game.tsx:39). -/
def canvasW (s : GState) : ℚ := 400 * s.scale

/-- Canvas height `CANVAS_HEIGHT = 600 * scale` (Game.tsx:40). -/
def canvasH (s : GState) : ℚ := 600 * s.scale

/-- `saveHighScore` (Game.tsx:147): push the new score, sort descending
with the comparator `(a, b) => b - a`, keep the first ten. -/
def saveHighScore (newScore : ℤ) (scores : List ℤ) : List ℤ :=
  (((scores ++ [newScore]).insertionSort (fun a b => b ≤ a)).take 10)

/-- The scale computation of `updateCanvasSize` (Game.tsx:64),
as a function of the available container width and height
(`clientWidth - 32` and `innerHeight - 200` in the source).  Returns
`(newWidth, newHeight, finalScale)`. -/
def updateCanvasSize (w h : ℚ) : ℚ × ℚ × ℚ :=
  let scaleWidth := w / 400
  let scaleHeight := h / 600
  let scale := min (min scaleWidth scaleHeight) (12/10)
  let finalScale := max scale (6/10)
  (400 * finalScale, 600 * finalScale, finalScale)

/-- Modelled from the spec: `clamp(x, lo, hi)` as used in the sentence
`scale = clamp(min(width/400, height/600, 1.2), 0.6, 1.2)`; the source
itself writes the computation as a `min` followed by a `max`. -/
def clamp (x lo hi : ℚ) : ℚ := max lo (min x hi)

/-- The guaranteed starting tile pushed first by `initializeTiles`
(Game.tsx:163): horizontally centered, 100 scaled units above the canvas
bottom, stable, bearing a coin. -/
def guaranteedTile (scale : ℚ) : Tile :=
  { x := 400 * scale / 2 - 80 * scale / 2
    y := 600 * scale - 100 * scale
    broken := false
    touched := false
    used := false
    hasCoin := true
    coinCollected := false }

/-- The i-th procedural tile of `initializeTiles` (Game.tsx:172),
for `i = 1 .. 14`: random x, vertical position `i * 80 * scale` above
the guaranteed tile, random `broken` and `hasCoin` draws. -/
def randTile (env : ℕ → TileRand) (scale : ℚ) (i : ℕ) : Tile :=
  { x := (env i).x
    y := 600 * scale - 100 * scale - (i : ℚ) * 80 * scale
    broken := (env i).broken
    touched := false
    used := false
    hasCoin := (env i).hasCoin
    coinCollected := false }

/-- `initializeTiles` (Game.tsx:160): the guaranteed tile followed by
fourteen procedural tiles at indices 1..14. -/
def initializeTiles (env : ℕ → TileRand) (scale : ℚ) : List Tile :=
  guaranteedTile scale :: (List.range 14).map (fun j => randTile env scale (j + 1))

/-- `startGame` (Game.tsx:685): the Start / Play-Again action.  The
button (Game.tsx:774) carries no `disabled` attribute, so this action
can fire in any mode; it never touches `highScores`. -/
def startGame (env : ℕ → TileRand) (s : GState) : GState :=
  let scale := s.scale
  let tw := 80 * scale
  let ps := 30 * scale
  let tileX := 400 * scale / 2 - tw / 2
  let tileY := 600 * scale - 100 * scale
  { s with
    gameState := Mode.playing
    score := 0
    jumpCount := 0
    cameraY := 0
    scrollSpeed := (8/10) * scale
    player := { x := tileX + tw / 2 - ps / 2, y := tileY - ps, vy := 0, vx := 0 }
    tiles := initializeTiles env scale }

/-- The Stop button handler (Game.tsx:792): `setGameState("over")` and
nothing else — in particular it does not call `saveHighScore`. -/
def stopAction (s : GState) : GState := { s with gameState := Mode.over }

/-- `deltaMultiplier = delta / 16.67` (Game.tsx:219). -/
def deltaMult (delta : ℚ) : ℚ := delta / (1667/100)

/-- The scroll-speed ref after the branch at Game.tsx:225: accelerate
towards `3 * scale` while the player's screen y is above 80% of the
canvas height, otherwise decay geometrically towards `0.8 * scale`. -/
def scrollAfter (s : GState) : ℚ :=
  let screenY := s.player.y - s.cameraY
  let maxAllowed := canvasH s * (8/10)
  if screenY < maxAllowed then
    min ((8/10) * s.scale * (1 + (maxAllowed - screenY) / (100 * s.scale))) (3 * s.scale)
  else
    max (s.scrollSpeed * (98/100)) ((8/10) * s.scale)

/-- The camera ref after Game.tsx:236: re-pinned to `H/2 - y` whenever
the pre-integration player y is above the vertical midpoint, otherwise
left unchanged. -/
def cameraAfter (s : GState) : ℚ :=
  if s.player.y < canvasH s / 2 then canvasH s / 2 - s.player.y else s.cameraY

/-- Player vertical velocity after gravity (Game.tsx:262). -/
def vyInt (s : GState) (d : ℚ) : ℚ := s.player.vy + (4/10) * s.scale * deltaMult d

/-- Player y after integration (Game.tsx:263). -/
def yInt (s : GState) (d : ℚ) : ℚ := s.player.y + vyInt s d * deltaMult d

/-- Player x after integration, before clamping (Game.tsx:265). -/
def xRaw (s : GState) (d : ℚ) : ℚ := s.player.x + s.player.vx * deltaMult d

/-- Player x after the two edge clamps (Game.tsx:268). -/
def xAfter (s : GState) (d : ℚ) : ℚ :=
  let x1 := xRaw s d
  let x2 := if x1 < 0 then 0 else x1
  if x2 > canvasW s - 30 * s.scale then canvasW s - 30 * s.scale else x2

/-- Player vx after drag (`vx * damp`, Game.tsx:266) and the clamps,
which zero the velocity at either edge. -/
def vxAfter (e : TickEnv) (s : GState) (d : ℚ) : ℚ :=
  let x1 := xRaw s d
  let v1 := s.player.vx * e.damp
  let v2 := if x1 < 0 then 0 else v1
  let x2 := if x1 < 0 then 0 else x1
  if x2 > canvasW s - 30 * s.scale then 0 else v2

/-- The advance updater queued at Game.tsx:240: shift one tile down by
`scrollSpeed * deltaMultiplier` (the ref already holds this tick's new
scroll speed when the queue is applied). -/
def advanceTile (s : GState) (d : ℚ) (t : Tile) : Tile :=
  { t with y := t.y + scrollAfter s * deltaMult d }

/-- All tiles advanced. -/
def tilesAdvanced (s : GState) (d : ℚ) : List Tile :=
  s.tiles.map (advanceTile s d)

/-- `Math.min(...tiles.map(t => t.y))` over a nonempty list
(Game.tsx:248). -/
def minTileY (ts : List Tile) : ℚ :=
  match ts with
  | [] => 0
  | t :: r => r.foldl (fun m u => min m u.y) t.y

/-- The tile spawned by the updater queued at Game.tsx:249: 80 scaled
units above the highest snapshot tile, with fresh random draws. -/
def spawnTile (e : TickEnv) (s : GState) : Tile :=
  { x := e.rand.x
    y := minTileY s.tiles - 80 * s.scale
    broken := e.rand.broken
    touched := false
    used := false
    hasCoin := e.rand.hasCoin
    coinCollected := false }

/-- Tile list after the conditional spawn: the snapshot length gates the
spawn (Game.tsx:247) and the new tile is appended after the advanced
list.  For an empty snapshot the source would compute
`Math.min() = Infinity` and the spawned tile would sit at y = Infinity,
which the cull below removes in the same queue, so the net effect on the
committed state is no spawn; the model takes that branch directly. -/
def tilesSpawned (e : TickEnv) (s : GState) (d : ℚ) : List Tile :=
  if s.tiles.length < 15 ∧ s.tiles ≠ [] then
    tilesAdvanced s d ++ [spawnTile e s]
  else
    tilesAdvanced s d

/-- The cull updater queued at Game.tsx:277: drop tiles below
`CANVAS_HEIGHT + cameraY + 200 * scale`; the camera ref already holds
this tick's value. -/
def tilesCulled (e : TickEnv) (s : GState) (d : ℚ) : List Tile :=
  (tilesSpawned e s d).filter
    (fun t => decide (t.y < canvasH s + cameraAfter s + 200 * s.scale))

/-- The six-clause landing test at Game.tsx:284, evaluated against the
player position after integration and the current value of the vy ref. -/
def tileCollide (px py pvy scale : ℚ) (t : Tile) : Prop :=
  px < t.x + 80 * scale ∧
  px + 30 * scale > t.x ∧
  py + 30 * scale > t.y ∧
  py + 30 * scale < t.y + 15 * scale + 5 * scale ∧
  pvy > 0 ∧
  t.used = false

instance (px py pvy scale : ℚ) (t : Tile) : Decidable (tileCollide px py pvy scale t) := by
  unfold tileCollide
  infer_instance

/-- The coin test at Game.tsx:321, evaluated against the snapshot tile
and the post-integration player position. -/
def coinHit (px py scale : ℚ) (t : Tile) : Prop :=
  t.hasCoin = true ∧ t.coinCollected = false ∧ t.used = false ∧
  px < t.x + 80 * scale ∧
  px + 30 * scale > t.x ∧
  py < t.y + 15 * scale + 20 * scale ∧
  py + 30 * scale > t.y - 20 * scale

instance (px py scale : ℚ) (t : Tile) : Decidable (coinHit px py scale t) := by
  unfold coinHit
  infer_instance

/-- The `baseJumpPower` ref (Game.tsx:47); it is never reassigned. -/
def baseJumpPower : ℚ := -8

/-- The rebound velocity set on landing (Game.tsx:294):
`max(baseJumpPower * scale - jumpCount * 0.5 * scale, -15 * scale)`. -/
def jumpVy (scale : ℚ) (jc : ℕ) : ℚ :=
  max (baseJumpPower * scale - (jc : ℚ) * (1/2) * scale) ((-15) * scale)

/-- The mark updaters queued inside the forEach
(`prev.map((t, i) => i === index ? ... : t)`, Game.tsx:300): update the
element at a position in whatever list the queue has produced so far. -/
def setAt (f : Tile → Tile) : ℕ → List Tile → List Tile
  | _, [] => []
  | 0, t :: r => f t :: r
  | Nat.succ n, t :: r => t :: setAt f n r

/-- Accumulator for the collision forEach: the queued tile list, the
score delta accumulated by the functional `setScore` calls, and the
`player.vy` / `jumpCount` refs. -/
structure CollAcc where
  tiles : List Tile
  score : ℤ
  vy : ℚ
  jc : ℕ
deriving DecidableEq, Repr

/-- One iteration of the forEach at Game.tsx:283 for the snapshot tile
`it.2` at snapshot index `it.1`: the landing branch (stable at :292,
fragile at :304) followed by the coin branch (:321). -/
def collideStep (scale px py : ℚ) (acc : CollAcc) (it : ℕ × Tile) : CollAcc :=
  let i := it.1
  let t := it.2
  let acc1 :=
    if tileCollide px py acc.vy scale t then
      if t.broken then
        if t.touched then acc
        else
          { acc with
            jc := acc.jc + 1
            vy := jumpVy scale (acc.jc + 1)
            score := acc.score + 5
            tiles := setAt (fun u => { u with touched := true, used := true }) i acc.tiles }
      else
        let jc1 := acc.jc + 1
        let vy1 := jumpVy scale jc1
        if t.touched then { acc with jc := jc1, vy := vy1 }
        else
          { acc with
            jc := jc1
            vy := vy1
            score := acc.score + 10
            tiles := setAt (fun u => { u with touched := true }) i acc.tiles }
    else acc
  if coinHit px py scale t then
    { acc1 with
      score := acc1.score + 15
      tiles := setAt (fun u => { u with coinCollected := true }) i acc1.tiles }
  else acc1

/-- The whole forEach, folded over the snapshot tile list with its
snapshot indices; the queued tile list starts from the culled list and
the vy ref starts from the post-gravity velocity. -/
def collisionPass (e : TickEnv) (d : ℚ) (s : GState) : CollAcc :=
  s.tiles.enum.foldl (collideStep s.scale (xAfter s d) (yInt s d))
    { tiles := tilesCulled e s d
      score := 0
      vy := vyInt s d
      jc := s.jumpCount }

/-- One invocation of `update(delta)` (Game.tsx:218), composing the
pieces above in source order.  The game-over branch (Game.tsx:341)
tests the post-integration y and records the snapshot score. -/
def update (e : TickEnv) (d : ℚ) (s : GState) : GState :=
  let acc := collisionPass e d s
  let overNow := canvasH s + 100 * s.scale < yInt s d
  { scale := s.scale
    gameState := if overNow then Mode.over else s.gameState
    score := s.score + acc.score
    highScores :=
      if overNow then
        if 0 < s.score then saveHighScore s.score s.highScores else s.highScores
      else s.highScores
    tiles := acc.tiles
    player := { x := xAfter s d, y := yInt s d, vy := acc.vy, vx := vxAfter e s d }
    jumpCount := if 5 * s.scale < acc.vy then 0 else acc.jc
    cameraY := cameraAfter s
    scrollSpeed := scrollAfter s }

/-- One frame at the nominal 60fps cadence: `delta = 16.67`, so
`deltaMultiplier = 1`. -/
def d0 : ℚ := 1667/100

/-- Random draws for a tick: the spawned tile sits at x = 300 (outside
every concrete player's x-band below), stable, without a coin. -/
def rand0 : TileRand := { x := 300, broken := false, hasCoin := false }

/-- Concrete tick environment; `damp` is `0.95 ^ 1`. -/
def env0 : TickEnv := { rand := rand0, damp := 95/100 }

/-- Random draws for session initialisation: every procedural tile at
x = 0, stable, without a coin. -/
def envInit : ℕ → TileRand := fun _ => { x := 0, broken := false, hasCoin := false }

/-- A playing session with score 37 about to be stopped via the Stop
button. -/
def sStop : GState :=
  { scale := 1, gameState := Mode.playing, score := 37, highScores := []
    tiles := [], player := { x := 0, y := 0, vy := 0, vx := 0 }
    jumpCount := 0, cameraY := 0, scrollSpeed := 8/10 }

/-- A playing session with score 37 one frame before falling off the
bottom: after gravity the player's y is 705 > 600 + 100. -/
def sFall : GState :=
  { scale := 1, gameState := Mode.playing, score := 37, highScores := []
    tiles := [], player := { x := 0, y := 695, vy := 48/5, vx := 0 }
    jumpCount := 0, cameraY := 0, scrollSpeed := 8/10 }

/-- A stable tile that has drifted to y = 799.5: after this tick's
scroll it is at 800.3, past the cull line 600 + 0 + 200. -/
def tB : Tile :=
  { x := 0, y := 1599/2, broken := false, touched := false, used := false
    hasCoin := false, coinCollected := false }

/-- A fresh fragile tile at (160, 560), in the landing band of the
player of `sC2` this tick. -/
def tA : Tile :=
  { x := 160, y := 560, broken := true, touched := false, used := false
    hasCoin := false, coinCollected := false }

/-- The tick in which the player lands on the fragile tile `tA` while
`tB` is culled: the player's bottom after integration is 575, inside
(560, 580), with downward velocity 3. -/
def sC2 : GState :=
  { scale := 1, gameState := Mode.playing, score := 0, highScores := []
    tiles := [tB, tA], player := { x := 160, y := 542, vy := 13/5, vx := 0 }
    jumpCount := 0, cameraY := 0, scrollSpeed := 8/10 }

/-- A fresh fragile tile bearing an uncollected coin. -/
def tC3 : Tile :=
  { x := 160, y := 560, broken := true, touched := false, used := false
    hasCoin := true, coinCollected := false }

/-- The tick in which the player consumes `tC3` and overlaps its coin
band at the same time. -/
def sC3 : GState :=
  { scale := 1, gameState := Mode.playing, score := 0, highScores := []
    tiles := [tC3], player := { x := 160, y := 542, vy := 13/5, vx := 0 }
    jumpCount := 0, cameraY := 0, scrollSpeed := 8/10 }

/-- A stable tile at y = 520 whose pre-scroll landing band the player of
`s4` just misses (player bottom 540 is not strictly below 520 + 20) but
whose post-scroll band (520.8, 540.8) the player is inside. -/
def t4 : Tile :=
  { x := 160, y := 520, broken := false, touched := false, used := false
    hasCoin := false, coinCollected := false }

/-- A tick whose post-integration player bottom is exactly 540 with
downward velocity 5. -/
def s4 : GState :=
  { scale := 1, gameState := Mode.playing, score := 0, highScores := []
    tiles := [t4], player := { x := 160, y := 505, vy := 23/5, vx := 0 }
    jumpCount := 0, cameraY := 0, scrollSpeed := 8/10 }

/-- A far-away tile that keeps the tile list nonempty without ever
interacting with the player. -/
def t5 : Tile :=
  { x := 0, y := -10000, broken := false, touched := false, used := false
    hasCoin := false, coinCollected := false }

/-- A player high above the midpoint (y = 140 < 300) and falling
(vy = 10): this tick pins the camera to 160, the next one to 149.6. -/
def s5 : GState :=
  { scale := 1, gameState := Mode.playing, score := 0, highScores := []
    tiles := [t5], player := { x := 200, y := 140, vy := 10, vx := 0 }
    jumpCount := 0, cameraY := 0, scrollSpeed := 8/10 }

/-- A state with the camera already advanced to 160 while the player is
falling at y = 150.4, still above the midpoint. -/
def s5b : GState :=
  { scale := 1, gameState := Mode.playing, score := 0, highScores := []
    tiles := [t5], player := { x := 200, y := 752/5, vy := 52/5, vx := 0 }
    jumpCount := 0, cameraY := 160, scrollSpeed := 3 }

/-- A fresh stable tile in the landing band of the player of `s6`. -/
def t6 : Tile :=
  { x := 160, y := 560, broken := false, touched := false, used := false
    hasCoin := false, coinCollected := false }

/-- The tick in which the player of the C6 scenario lands on the fresh
stable tile `t6` with jump count 0. -/
def s6 : GState :=
  { scale := 1, gameState := Mode.playing, score := 0, highScores := []
    tiles := [t6], player := { x := 160, y := 542, vy := 13/5, vx := 0 }
    jumpCount := 0, cameraY := 0, scrollSpeed := 8/10 }

/-- An idle session about to be started (used for session-reset
witnesses). -/
def sIdle : GState :=
  { scale := 1, gameState := Mode.idle, score := 0, highScores := []
    tiles := [], player := { x := 185, y := 450, vy := 0, vx := 0 }
    jumpCount := 0, cameraY := 0, scrollSpeed := 8/10 }

instance : IsTotal ℤ (fun a b : ℤ => b ≤ a) := ⟨fun a b => le_total b a⟩

instance : IsTrans ℤ (fun a b : ℤ => b ≤ a) := ⟨fun _ _ _ h1 h2 => le_trans h2 h1⟩

/-- C7: after every `saveHighScore` the ledger is sorted descending and
holds `min 10 (previous length + 1)` entries — in particular never more
than ten, so recording an eleventh score keeps only the top ten. -/
theorem c7_ledger (sc : ℤ) (l : List ℤ) :
    List.Sorted (fun a b : ℤ => b ≤ a) (saveHighScore sc l) ∧
    (saveHighScore sc l).length = min 10 (l.length + 1) ∧
    (saveHighScore sc l).length ≤ 10 := by
  refine ⟨?_, ?_, ?_⟩
  · exact (List.sorted_insertionSort _ _).sublist (List.take_sublist _ _)
  · simp [saveHighScore]
  · simp [saveHighScore]

/-- C9: the Scaling Unit's output scale is exactly
`clamp(min(w/400, h/600, 1.2), 0.6, 1.2)` and the produced canvas
dimensions are the base resolution times that scale. -/
theorem c9_scaling (w h : ℚ) :
    (updateCanvasSize w h).2.2 = clamp (min (min (w / 400) (h / 600)) (12/10)) (6/10) (12/10) ∧
    (updateCanvasSize w h).1 = 400 * (updateCanvasSize w h).2.2 ∧
    (updateCanvasSize w h).2.1 = 600 * (updateCanvasSize w h).2.2 := by
  refine ⟨?_, rfl, rfl⟩
  simp only [updateCanvasSize, clamp]
  rw [min_eq_left (min_le_right _ _), max_comm]

/-- C10: the Start action is unguarded — applied to an arbitrary state
(including `playing` and `paused`) it performs the full session reset,
transitions to `playing`, and leaves the High-Score Ledger untouched, so
an in-progress session's score is discarded without being recorded. -/
theorem c10_start_unguarded (env : ℕ → TileRand) (s : GState) :
    (startGame env s).gameState = Mode.playing ∧
    (startGame env s).score = 0 ∧
    (startGame env s).highScores = s.highScores ∧
    (startGame env s).jumpCount = 0 ∧
    (startGame env s).cameraY = 0 ∧
    (startGame env s).tiles = initializeTiles env s.scale := by
  exact ⟨rfl, rfl, rfl, rfl, rfl, rfl⟩

/-- C1, counterexample: the claim says every session end — including the
Stop action — records a positive score, but the Stop button handler only
sets the mode to `over`: stopping a playing session with score 37 leaves
the ledger without the entry 37. -/
theorem c1_stop_counterexample :
    (stopAction sStop).gameState = Mode.over ∧ sStop.score = 37 ∧
    (37 : ℤ) ∉ (stopAction sStop).highScores := by
  refine ⟨rfl, rfl, ?_⟩
  simp [stopAction, sStop]

/-- C1, amended: only the fall-off-the-bottom termination records the
score.  When a tick's post-integration y exceeds `H + 100 * scale` and
the start-of-tick score is positive, the session transitions to `over`
and the ledger becomes `saveHighScore score ledger`; the Stop action
transitions to `over` leaving the ledger unchanged. -/
theorem c1_session_end_amended (e : TickEnv) (d : ℚ) (s : GState)
    (hover : canvasH s + 100 * s.scale < yInt s d) (hpos : 0 < s.score) :
    (update e d s).gameState = Mode.over ∧
    (update e d s).highScores = saveHighScore s.score s.highScores ∧
    (∀ s2 : GState, (stopAction s2).highScores = s2.highScores) := by
  refine ⟨?_, ?_, fun _ => rfl⟩
  · simp only [update]
    rw [if_pos hover]
  · simp only [update]
    rw [if_pos hover, if_pos hpos]

/-- C1, witness: falling off the bottom with score 37 transitions to
`over` and the ledger gains the entry 37. -/
theorem c1_session_end_witness :
    (update env0 d0 sFall).gameState = Mode.over ∧
    (update env0 d0 sFall).highScores = [37] := by
  have h := c1_session_end_amended env0 d0 sFall
    (by norm_num [canvasH, yInt, vyInt, deltaMult, sFall, d0])
    (by norm_num [sFall])
  refine ⟨h.1, ?_⟩
  rw [h.2.1]
  norm_num [saveHighScore, sFall, List.insertionSort, List.orderedInsert]

/-- C2, evaluation at the failing input: in the tick of `sC2` the player
contacts the fresh fragile tile `tA` (first conjunct) and the +5 bonus is
awarded, but the `touched`/`used` marks — applied by snapshot index 1 to
the post-cull tile list (`tB` was culled this very tick) — land on the
tile spawned this tick (at y 480, never contacted) instead: the fragile
tile at position 0 of the committed list remains untouched, unused,
collidable and rendered, contradicting the claimed once-only award and
permanent marking. -/
theorem c2_fragile_mismark_eval :
    tileCollide (xAfter sC2 d0) (yInt sC2 d0) (vyInt sC2 d0) 1 tA ∧
    (update env0 d0 sC2).score = 5 ∧
    (update env0 d0 sC2).tiles.map Tile.touched = [false, true] ∧
    (update env0 d0 sC2).tiles.map Tile.used = [false, true] ∧
    (update env0 d0 sC2).tiles[0]?.map Tile.broken = some true ∧
    (update env0 d0 sC2).tiles[1]?.map Tile.y = some 480 := by
  norm_num [update, collisionPass, collideStep, tileCollide, coinHit, tilesCulled,
    tilesSpawned, tilesAdvanced, advanceTile, spawnTile, minTileY, scrollAfter,
    cameraAfter, vyInt, yInt, xRaw, xAfter, deltaMult, canvasW, canvasH, setAt,
    jumpVy, baseJumpPower, min_def, max_def, List.enum, List.enumFrom, List.cons_ne_nil,
    sC2, tB, tA, env0, rand0, d0]

/-- C5, counterexample: the camera offset does decrease across playing
ticks.  From `s5` (player at y 140, falling with vy 10, camera 0) the
first tick pins the camera to 160; the player is still above the
midpoint and falling, so the second tick re-pins the camera to 149.6,
strictly below 160, while the session keeps playing. -/
theorem c5_camera_counterexample :
    (update env0 d0 (update env0 d0 s5)).cameraY < (update env0 d0 s5).cameraY ∧
    (update env0 d0 s5).gameState = Mode.playing ∧
    (update env0 d0 (update env0 d0 s5)).gameState = Mode.playing := by
  norm_num [update, collisionPass, collideStep, tileCollide, coinHit, tilesCulled,
    tilesSpawned, tilesAdvanced, advanceTile, spawnTile, minTileY, scrollAfter,
    cameraAfter, vyInt, yInt, xRaw, xAfter, deltaMult, canvasW, canvasH, setAt,
    jumpVy, baseJumpPower, min_def, max_def, List.enum, List.enumFrom, List.cons_ne_nil,
    s5, t5, env0, rand0, d0]

/-- C5, amended: the camera is re-pinned to `H/2 - y` whenever the
pre-tick player y is above the vertical midpoint and is unchanged
otherwise; it is therefore not monotone — in any tick where the player
is above the midpoint but below the camera's previous pin (e.g. while
falling there) the camera offset strictly decreases. -/
theorem c5_camera_amended (e : TickEnv) (d : ℚ) (s : GState) :
    ((update e d s).cameraY =
      if s.player.y < canvasH s / 2 then canvasH s / 2 - s.player.y else s.cameraY) ∧
    (s.player.y < canvasH s / 2 → canvasH s / 2 - s.player.y < s.cameraY →
      (update e d s).cameraY < s.cameraY) := by
  refine ⟨rfl, fun h1 h2 => ?_⟩
  have : (update e d s).cameraY = canvasH s / 2 - s.player.y := by
    simp only [update, cameraAfter]
    rw [if_pos h1]
  rw [this]
  exact h2

/-- C5, witness for the amended claim at a concrete falling state. -/
theorem c5_camera_witness : (update env0 d0 s5b).cameraY < s5b.cameraY := by
  exact (c5_camera_amended env0 d0 s5b).2
    (by norm_num [canvasH, s5b]) (by norm_num [canvasH, s5b])

/-- C3: in the very tick in which a fresh fragile tile is consumed, a
coin sitting on it is still collectible: if the single snapshot tile is
fragile, untouched, passes the landing test and the coin test (which
requires `hasCoin` and the coin not yet collected), and survives the
cull, then the score gains +5 and +15 in the same frame and the
committed tile is marked touched, used and coin-collected — the coin
test reads the snapshot `used` flag, so the `used` mark queued in the
same tick does not block it. -/
theorem c3_fragile_coin_same_tick (e : TickEnv) (d : ℚ) (s : GState) (t : Tile)
    (hts : s.tiles = [t]) (hb : t.broken = true) (ht : t.touched = false)
    (hcoll : tileCollide (xAfter s d) (yInt s d) (vyInt s d) s.scale t)
    (hcoin : coinHit (xAfter s d) (yInt s d) s.scale t)
    (hkeep : (advanceTile s d t).y < canvasH s + cameraAfter s + 200 * s.scale) :
    (update e d s).score = s.score + 5 + 15 ∧
    (update e d s).tiles[0]? =
      some { t with y := t.y + scrollAfter s * deltaMult d,
                    touched := true, used := true, coinCollected := true } := by
  have hcull : tilesCulled e s d =
      advanceTile s d t ::
        List.filter (fun u => decide (u.y < canvasH s + cameraAfter s + 200 * s.scale))
          [spawnTile e s] := by
    simp only [tilesCulled, tilesSpawned, tilesAdvanced, hts, List.map_cons, List.map_nil,
      List.cons_append, List.nil_append]
    rw [if_pos ⟨by simp, by simp⟩]
    simp only [List.cons_append, List.nil_append, List.filter_cons]
    rw [if_pos (decide_eq_true hkeep)]
  have hpass : collisionPass e d s =
      { tiles := { t with y := t.y + scrollAfter s * deltaMult d,
                          touched := true, used := true, coinCollected := true } ::
          List.filter (fun u => decide (u.y < canvasH s + cameraAfter s + 200 * s.scale))
            [spawnTile e s]
        score := 0 + 5 + 15
        vy := jumpVy s.scale (s.jumpCount + 1)
        jc := s.jumpCount + 1 } := by
    simp only [collisionPass, hts, List.enum, List.enumFrom, List.foldl_cons,
      List.foldl_nil, collideStep, hb, ht, hcull, hcoll, hcoin, if_true,
      Bool.false_eq_true, if_false, setAt, advanceTile]
  refine ⟨?_, ?_⟩
  · simp only [update, hpass]
    omega
  · simp only [update, hpass, List.getElem?_cons_zero]

/-- C3, witness: the concrete fragile-with-coin landing tick. -/
theorem c3_fragile_coin_witness :
    (update env0 d0 sC3).score = 20 ∧
    (update env0 d0 sC3).tiles[0]? =
      some { x := 160, y := 2804/5, broken := true, touched := true, used := true,
             hasCoin := true, coinCollected := true } := by
  have h := c3_fragile_coin_same_tick env0 d0 sC3 tC3 rfl rfl rfl
    (by norm_num [tileCollide, xAfter, xRaw, yInt, vyInt, deltaMult, canvasW, sC3, tC3, d0])
    (by norm_num [coinHit, xAfter, xRaw, yInt, vyInt, deltaMult, canvasW, sC3, tC3, d0])
    (by norm_num [advanceTile, scrollAfter, cameraAfter, canvasH, deltaMult, min_def,
      max_def, sC3, tC3, d0])
  refine ⟨?_, ?_⟩
  · rw [h.1]
    norm_num [sC3]
  · rw [h.2]
    norm_num [tC3, scrollAfter, cameraAfter, canvasH, deltaMult, min_def, max_def, sC3, d0]

/-- C4, counterexample: the claim says the collision test sees the
post-scroll tile positions.  In the tick of `s4`, the landing test
succeeds against the advanced (post-scroll) position of the single tile
and fails against its snapshot position, and the code performs no
landing: the score stays 0, the vertical velocity stays the integrated
downward 5, and no tile is marked touched — the forEach at Game.tsx:283
iterates over the pre-scroll snapshot. -/
theorem c4_postscroll_counterexample :
    tileCollide (xAfter s4 d0) (yInt s4 d0) (vyInt s4 d0) 1 (advanceTile s4 d0 t4) ∧
    ¬ tileCollide (xAfter s4 d0) (yInt s4 d0) (vyInt s4 d0) 1 t4 ∧
    (update env0 d0 s4).score = 0 ∧
    (update env0 d0 s4).player.vy = 5 ∧
    (update env0 d0 s4).tiles.map Tile.touched = [false, false] := by
  refine ⟨?_, ?_, ?_⟩
  · norm_num [tileCollide, xAfter, xRaw, yInt, vyInt, deltaMult, canvasW, canvasH,
      advanceTile, scrollAfter, cameraAfter, min_def, max_def, s4, t4, d0]
  · norm_num [tileCollide, xAfter, xRaw, yInt, vyInt, deltaMult, canvasW, s4, t4, d0]
  · norm_num [update, collisionPass, collideStep, tileCollide, coinHit, tilesCulled,
      tilesSpawned, tilesAdvanced, advanceTile, spawnTile, minTileY, scrollAfter,
      cameraAfter, vyInt, yInt, xRaw, xAfter, deltaMult, canvasW, canvasH, setAt,
      jumpVy, baseJumpPower, min_def, max_def, List.enum, List.enumFrom, List.cons_ne_nil,
      s4, t4, env0, rand0, d0]

/-- C4, amended: the advance updater is queued before the collision
loop, but the loop tests the snapshot (pre-scroll) tile positions: if
the pre-scroll landing and coin tests fail for the single snapshot tile,
the tick performs no landing — velocity stays the integrated value, the
score is unchanged, the committed tiles are exactly the
advanced-spawned-culled list with no marks — even when the post-scroll
position would pass the test; the scrolled positions are only seen by
the next tick's loop. -/
theorem c4_prescroll_amended (e : TickEnv) (d : ℚ) (s : GState) (t : Tile)
    (hts : s.tiles = [t])
    (hcoll : ¬ tileCollide (xAfter s d) (yInt s d) (vyInt s d) s.scale t)
    (hcoin : ¬ coinHit (xAfter s d) (yInt s d) s.scale t) :
    (update e d s).player.vy = vyInt s d ∧
    (update e d s).score = s.score ∧
    (update e d s).tiles = tilesCulled e s d ∧
    (update e d s).jumpCount = (if 5 * s.scale < vyInt s d then 0 else s.jumpCount) := by
  have hpass : collisionPass e d s =
      { tiles := tilesCulled e s d, score := 0, vy := vyInt s d, jc := s.jumpCount } := by
    simp only [collisionPass, hts, List.enum, List.enumFrom, List.foldl_cons,
      List.foldl_nil, collideStep, hcoll, hcoin, if_false]
  refine ⟨?_, ?_, ?_, ?_⟩ <;> simp only [update, hpass]
  omega

/-- C4, witness for the amended claim at the concrete near-miss tick. -/
theorem c4_prescroll_witness :
    (update env0 d0 s4).player.vy = 5 ∧ (update env0 d0 s4).score = 0 := by
  have h := c4_prescroll_amended env0 d0 s4 t4 rfl
    (by norm_num [tileCollide, xAfter, xRaw, yInt, vyInt, deltaMult, canvasW, s4, t4, d0])
    (by norm_num [coinHit, t4])
  refine ⟨?_, ?_⟩
  · rw [h.1]
    norm_num [vyInt, deltaMult, s4, d0]
  · rw [h.2.1]
    norm_num [s4]

/-- C6: on a landing (stable, or fragile first contact) the new vertical
velocity is `max(baseJumpPower*scale - (jumpCount+1)*0.5*scale,
-15*scale)`; the landing velocity is bounded below by the cap
`-15*scale`, its magnitude is monotone in the consecutive-jump count,
and whenever a tick ends with `vy > 5*scale` the jump counter resets to
zero. -/
theorem c6_jump_power (e : TickEnv) (d : ℚ) (s : GState) (t : Tile)
    (hts : s.tiles = [t])
    (hcoll : tileCollide (xAfter s d) (yInt s d) (vyInt s d) s.scale t)
    (hfresh : t.broken = false ∨ t.touched = false)
    (hsc : 0 ≤ s.scale) :
    (update e d s).player.vy = jumpVy s.scale (s.jumpCount + 1) ∧
    (-15) * s.scale ≤ jumpVy s.scale (s.jumpCount + 1) ∧
    (∀ j k : ℕ, j ≤ k → jumpVy s.scale k ≤ jumpVy s.scale j) ∧
    (∀ (e2 : TickEnv) (d2 : ℚ) (s2 : GState),
      5 * s2.scale < (update e2 d2 s2).player.vy → (update e2 d2 s2).jumpCount = 0) := by
  refine ⟨?_, le_max_right _ _, ?_, ?_⟩
  · have hvy : (collisionPass e d s).vy = jumpVy s.scale (s.jumpCount + 1) := by
      cases hb : t.broken with
      | false =>
        cases htt : t.touched with
        | false =>
          simp only [collisionPass, hts, List.enum, List.enumFrom, List.foldl_cons,
            List.foldl_nil, collideStep, hcoll, hb, htt, if_true, Bool.false_eq_true,
            if_false, apply_ite CollAcc.vy, ite_self]
        | true =>
          simp only [collisionPass, hts, List.enum, List.enumFrom, List.foldl_cons,
            List.foldl_nil, collideStep, hcoll, hb, htt, if_true, Bool.false_eq_true,
            if_false, apply_ite CollAcc.vy, ite_self]
      | true =>
        have htt : t.touched = false := by
          rcases hfresh with h | h
          · rw [hb] at h
            exact absurd h (by simp)
          · exact h
        simp only [collisionPass, hts, List.enum, List.enumFrom, List.foldl_cons,
          List.foldl_nil, collideStep, hcoll, hb, htt, if_true, Bool.false_eq_true,
          if_false, apply_ite CollAcc.vy, ite_self]
    simp only [update]
    exact hvy
  · intro j k hjk
    have hc : (j : ℚ) ≤ (k : ℚ) := by exact_mod_cast hjk
    simp only [jumpVy]
    refine max_le_max ?_ (le_refl _)
    nlinarith [hc, hsc]
  · intro e2 d2 s2 h
    simp only [update] at h ⊢
    rw [if_pos h]

/-- C6, witness: at scale 1, landing on a fresh stable tile with the
jump count becoming 1 yields vy = -8.5, and the score gains 10. -/
theorem c6_jump_power_witness :
    (update env0 d0 s6).player.vy = -(17/2) ∧ (update env0 d0 s6).score = 10 := by
  have h := c6_jump_power env0 d0 s6 t6 rfl
    (by norm_num [tileCollide, xAfter, xRaw, yInt, vyInt, deltaMult, canvasW, s6, t6, d0])
    (Or.inl rfl) (by norm_num [s6])
  refine ⟨?_, ?_⟩
  · rw [h.1]
    norm_num [jumpVy, baseJumpPower, max_def, s6]
  · norm_num [update, collisionPass, collideStep, tileCollide, coinHit, tilesCulled,
      tilesSpawned, tilesAdvanced, advanceTile, spawnTile, minTileY, scrollAfter,
      cameraAfter, vyInt, yInt, xRaw, xAfter, deltaMult, canvasW, canvasH, setAt,
      jumpVy, baseJumpPower, min_def, max_def, List.enum, List.enumFrom, List.cons_ne_nil,
      s6, t6, env0, rand0, d0]

/-- C8: every session reset yields score 0, jump counter 0, camera 0,
mode playing, a 15-tile stream whose head is the guaranteed starting
tile (centered, near the bottom, stable, coin-bearing), the player
positioned directly above that tile, the i-th tile exactly `i * 80 *
scale` above the starting height, and (for positive scale) no other
tile at the starting height. -/
theorem c8_session_reset (env : ℕ → TileRand) (s : GState) (hsc : 0 < s.scale) :
    (startGame env s).gameState = Mode.playing ∧
    (startGame env s).score = 0 ∧
    (startGame env s).jumpCount = 0 ∧
    (startGame env s).cameraY = 0 ∧
    (startGame env s).tiles.length = 15 ∧
    (startGame env s).tiles[0]? = some (guaranteedTile s.scale) ∧
    (guaranteedTile s.scale).broken = false ∧
    (guaranteedTile s.scale).hasCoin = true ∧
    (guaranteedTile s.scale).x = 400 * s.scale / 2 - 80 * s.scale / 2 ∧
    (guaranteedTile s.scale).y = 600 * s.scale - 100 * s.scale ∧
    (startGame env s).player.x = (guaranteedTile s.scale).x + 80 * s.scale / 2 - 30 * s.scale / 2 ∧
    (startGame env s).player.y = (guaranteedTile s.scale).y - 30 * s.scale ∧
    (∀ i : ℕ, i < 15 →
      ((startGame env s).tiles[i]?.map Tile.y) =
        some (600 * s.scale - 100 * s.scale - (i : ℚ) * 80 * s.scale)) ∧
    (∀ i : ℕ, 0 < i → i < 15 →
      ((startGame env s).tiles[i]?.map Tile.y) ≠ some ((guaranteedTile s.scale).y)) := by
  have hrange : List.range 14 = [0, 1, 2, 3, 4, 5, 6, 7, 8, 9, 10, 11, 12, 13] := rfl
  refine ⟨rfl, rfl, rfl, rfl, ?_, rfl, rfl, rfl, rfl, rfl, rfl, rfl, ?_, ?_⟩
  · simp [startGame, initializeTiles]
  · intro i hi
    interval_cases i <;>
      norm_num [startGame, initializeTiles, hrange, guaranteedTile, randTile]
  · intro i hi0 hi
    interval_cases i <;>
      · norm_num [startGame, initializeTiles, hrange, guaranteedTile, randTile]
        intro hx
        nlinarith [hsc]

/-- C8, witness: resetting the idle unit-scale session gives score 0 and
puts the fourth tile at height 260 = 600 - 100 - 3 * 80. -/
theorem c8_session_reset_witness :
    (startGame envInit sIdle).score = 0 ∧
    ((startGame envInit sIdle).tiles[3]?.map Tile.y) = some 260 := by
  obtain ⟨-, h2, -, -, -, -, -, -, -, -, -, -, h13, -⟩ :=
    c8_session_reset envInit sIdle (by norm_num [sIdle])
  refine ⟨h2, ?_⟩
  have h3 := h13 3 (by norm_num)
  rw [h3]
  norm_num [sIdle]

end Doodle
